import Mathlib

/-!
Verification of the email-assistant repository's reply workflow,
dispatcher bookkeeping, listener start-up mode selection and dedup cache.

The definitions below are a shallow embedding of the Python source:

* `src/email_assistant/agents/agent_state.py`   — `Task`, `EmailMessage`
* `src/email_assistant/agents/agent_nodes.py`   — `WrokflowNodes.process_email`,
  `send_email`, `mark_as_replied`
* `src/email_assistant/agents/email_agent.py`   — `EmailAgent.build_workflow`,
  `route_after_process`
* `src/email_assistant/service/email_listener.py` — `EmailListener.start`,
  `_process_new_emails`, `_on_task_complete`
* `src/email_assistant/system_init.py`          — `on_new_email` dedup cache

External collaborators (the language model, the SMTP send service, tool
execution) are modelled as oracle parameters: the embedding is a function of
their outcomes, never of their implementation.
-/

namespace EmailAssistant

/-! ## Conversation messages (langchain message objects)

Every langchain `BaseMessage` has an optional `name` attribute; only
`AIMessage` has a `tool_calls` attribute.  Tool calls are identified here by
the tool name (the only part of a tool call this repository's control flow
inspects). -/

inductive Msg where
  | system (content : String)
  | human (content : String)
  | ai (content : String) (toolCalls : List String)
  | tool (content : String) (name : String)
deriving DecidableEq, Repr

/-- Python `hasattr(m, 'name') and m.name == n`: only `ToolMessage`s produced by the
`ToolNode` carry a tool name in this system; on other messages `name` is
`None`. -/
def Msg.msgName : Msg → Option String
  | .tool _ n => some n
  | _ => none

/-- Python `hasattr(m, 'tool_calls') and m.tool_calls`: only `AIMessage` has the
attribute, and a Python empty list is falsy. -/
def Msg.toolCallsTruthy : Msg → Bool
  | .ai _ tcs => !tcs.isEmpty
  | _ => false

/-- Content of an `AIMessage` (used by `send_email`'s backwards scan). -/
def Msg.aiContent : Msg → Option String
  | .ai c _ => some c
  | _ => none

/-! ## The `Task` state (`agent_state.py`)

`Task` is a `TypedDict`; keys may be absent at runtime, and nodes read them
with `state.get(key, default)`.  Fields that are only ever read through a
defaulted `get` are modelled with the default folded in (`messages` defaults
to `[]`, `status` to `""`, `error` to `""`, `email_replied` to `False`);
`subject` is read by `send_email` via `state.get("subject")` with no default,
so it is an `Option`; `email_message` is read via `get("email_message", {})`
and tested for falsiness, so the empty/absent dict is `none`. -/

structure EmailMsg where
  msg_id : String
  subject : String
  from_email : String
  from_name : String
  to_email : String
  date : String
  body : String
deriving DecidableEq, Repr

structure TaskState where
  messages : List Msg
  status : String
  email_message : Option EmailMsg
  error : String
  email_replied : Bool
  subject : Option String
deriving DecidableEq, Repr

/-- The initial state built by `EmailAgent.run`:
`{"email_message": email_dict, "email_replied": False}`. -/
def initialState (em : EmailMsg) : TaskState :=
  { messages := []
    status := ""
    email_message := some em
    error := ""
    email_replied := false
    subject := none }

/-! ## Node updates and the LangGraph state merge

A LangGraph node returns a partial update of the state.  The `messages`
channel is annotated with the `add_messages` reducer: a returned plain string
is coerced to a `HumanMessage` and appended, a returned list of messages is
appended (no message in this system carries an explicit id, so the reducer's
id-replacement path never fires). -/

inductive MsgUpdate where
  | str (s : String)
  | list (l : List Msg)
deriving DecidableEq, Repr

structure Update where
  messages : Option MsgUpdate := none
  status : Option String := none
  email_message : Option (Option EmailMsg) := none
  error : Option String := none
  email_replied : Option Bool := none
  subject : Option (Option String) := none
deriving DecidableEq, Repr

/-- The `add_messages` reducer of `langgraph.graph.message`: non-list values
are wrapped, strings are converted to human-role messages, and (absent
explicit ids) everything is appended. -/
def addMessages (old : List Msg) : MsgUpdate → List Msg
  | .str s => old ++ [Msg.human s]
  | .list l => old ++ l

def applyUpdate (st : TaskState) (u : Update) : TaskState :=
  { messages := match u.messages with
      | some m => addMessages st.messages m
      | none => st.messages
    status := u.status.getD st.status
    email_message := u.email_message.getD st.email_message
    error := u.error.getD st.error
    email_replied := u.email_replied.getD st.email_replied
    subject := u.subject.getD st.subject }

/-! ## External collaborators as oracles -/

/-- Outcome of `self.llm.invoke(messages)`: either an exception (carrying
`str(e)`) or an `AIMessage`. -/
def LlmOutcome := Except String Msg

/-- Outcome of `send_simple_email`: the returned dict has `success` and
`message` keys, and the call may itself raise. -/
inductive SendResult where
  | ok
  | failed (message : String)
  | raised (e : String)
deriving DecidableEq, Repr

structure OutgoingEmail where
  to_email : String
  subject : Option String
  content : String
deriving DecidableEq, Repr

/-- The environment a workflow run executes in: configuration values read in
`WrokflowNodes.__init__`, plus the oracles for the language model, the tool
executor and the SMTP service.  `llm` maps the conversation passed to
`invoke` to its outcome; `exec` maps a requested tool name to the textual
tool result; `send` maps the composed outgoing email to the send outcome. -/
structure Env where
  master : String
  assistant : String
  llm : List Msg → LlmOutcome
  exec : String → String
  send : OutgoingEmail → SendResult

/-! ## `WrokflowNodes.process_email` (`agent_nodes.py` lines 25-138) -/

/-- The formatted email content placed in the initial user turn. -/
def emailContent (em : EmailMsg) : String :=
  "\n                    主题: " ++ em.subject ++
  "\n                    发件人: " ++ em.from_name ++ " <" ++ em.from_email ++ ">" ++
  "\n                    日期: " ++ em.date ++
  "\n                    正文:\n                    " ++ em.body ++
  "\n                    "

/-- The system prompt built in `process_email` (its exact text never feeds
back into the state; it is part of the conversation handed to the oracle). -/
def systemPrompt (master : String) : String :=
  "Email Assistant system prompt for master " ++ master

/-- Python `messages and len(messages) > 0 and messages[-1].name == 'send_email_simple'`. -/
def lastIsSendToolResult (ms : List Msg) : Bool :=
  match ms.getLast? with
  | some m => m.msgName = some "send_email_simple"
  | none => false

def process_email (env : Env) (st : TaskState) : Update :=
  match st.email_message with
  | none => { email_message := some none }
  | some em =>
    if st.email_replied then
      { status := some "email_proccessed"
        messages := some (.str "Email already replied, skipping duplicate processing") }
    else if lastIsSendToolResult st.messages then
      { messages := some (.list [Msg.ai "邮件已发送，任务完成" []])
        status := some "success"
        email_replied := some true }
    else if em.from_email = env.assistant then
      { status := some "ignored"
        messages := some (.str "Ignore email : Self-sent email")
        email_replied := some false }
    else if em.from_email = env.master then
      let convo : List Msg :=
        if st.messages.length = 0 then
          [Msg.system (systemPrompt env.master), Msg.human (emailContent em)]
        else st.messages
      match env.llm convo with
      | .ok res =>
        { messages := some (.list [res])
          status := some "agent_replied"
          email_replied := some false
          subject := some (some ("回复:" ++ em.subject)) }
      | .error e =>
        { status := some "agent_processed_failed"
          error := some e
          subject := some (some "Agent process email error")
          messages := some (.str ("Sorry , Agent process email error, detail as below: "
            ++ e ++ ",please try again later!"))
          email_replied := some false }
    else
      { status := some "ignored"
        messages := some (.str "It\x27s not master\x27s email, No need to reply to the email.")
        email_replied := some false }

/-! ## `route_after_process` (`email_agent.py` lines 113-136) -/

inductive Route where
  | tools
  | send_email
  | mark_as_replied
deriving DecidableEq, Repr

def route_after_process (st : TaskState) : Route :=
  if st.email_replied then .mark_as_replied
  else if st.status = "ignored" then .mark_as_replied
  else match st.messages.getLast? with
    | some m => if m.toolCallsTruthy then .tools else .send_email
    | none => .send_email

/-! ## `WrokflowNodes.send_email` (`agent_nodes.py` lines 142-198) -/

/-- The backwards scan `for msg in reversed(messages): if isinstance(msg,
AIMessage): content = msg.content; break`. -/
def lastAiContent : List Msg → Option String
  | [] => none
  | m :: ms =>
    match lastAiContent ms with
    | some c => some c
    | none => m.aiContent

/-- The fixed fallback body used when no assistant content was found. -/
def placeholderBody : String := "Agent没有正确返回内容～"

/-- The outgoing email composed by `send_email`: recipient is always
`self.master_email`; body falls back to a fixed placeholder when the scan
found no content or an empty one (Python `if not content`). -/
def composeOutgoing (master : String) (st : TaskState) : OutgoingEmail :=
  let content := (lastAiContent st.messages).getD ""
  { to_email := master
    subject := st.subject
    content := if content = "" then placeholderBody else content }

/-- The state update returned by `send_email`.  The success branch also
writes an `email_subject` key, which is not a declared channel of the `Task`
schema and therefore never lands in the state. -/
def send_email_update (r : SendResult) : Update :=
  match r with
  | .ok =>
    { status := some "send_email_success"
      messages := some (.str "Email has been send")
      email_replied := some false }
  | .failed m =>
    { status := some "send_email_failed"
      messages := some (.str "Email send error")
      email_replied := some false
      error := some m }
  | .raised e =>
    { status := some "send_email_failed"
      messages := some (.str "Email send exception error")
      email_replied := some false
      error := some e }

/-! ## `WrokflowNodes.mark_as_replied` (`agent_nodes.py` lines 204-214) -/

def mark_as_replied_update : Update :=
  { email_replied := some true
    status := some "email_proccessed" }

/-! ## The `ToolNode` (`langgraph.prebuilt`)

For each tool call of the last `AIMessage` it runs the tool and returns the
results as `ToolMessage`s carrying the tool name. -/

def tools_node_update (env : Env) (st : TaskState) : Update :=
  let tcs := match st.messages.getLast? with
    | some (Msg.ai _ tcs) => tcs
    | _ => []
  { messages := some (.list (tcs.map fun n => Msg.tool (env.exec n) n)) }

/-! ## The compiled graph (`EmailAgent.build_workflow`)

Entry point `process_email`; conditional edges by `route_after_process`;
`tools → process_email`, `send_email → mark_as_replied`,
`mark_as_replied → END`.  `runFrom` executes the graph with explicit fuel and
also records every email actually handed to the SMTP service, so theorems can
speak about what was sent. -/

inductive Node where
  | process_email
  | tools
  | send_email
  | mark_as_replied
  | done
deriving DecidableEq, Repr

def runFrom (env : Env) : Nat → Node → TaskState → Option (TaskState × List OutgoingEmail)
  | 0, _, _ => none
  | _ + 1, .done, st => some (st, [])
  | fuel + 1, .process_email, st =>
    let st' := applyUpdate st (process_email env st)
    runFrom env fuel
      (match route_after_process st' with
        | .tools => .tools
        | .send_email => .send_email
        | .mark_as_replied => .mark_as_replied) st'
  | fuel + 1, .tools, st =>
    runFrom env fuel .process_email (applyUpdate st (tools_node_update env st))
  | fuel + 1, .send_email, st =>
    let out := composeOutgoing env.master st
    let st' := applyUpdate st (send_email_update (env.send out))
    (runFrom env fuel .mark_as_replied st').map fun p => (p.1, out :: p.2)
  | fuel + 1, .mark_as_replied, st =>
    runFrom env fuel .done (applyUpdate st mark_as_replied_update)

/-- A full workflow run on one incoming message, from `EmailAgent.run`'s
initial state. -/
def runWorkflow (env : Env) (fuel : Nat) (em : EmailMsg) :
    Option (TaskState × List OutgoingEmail) :=
  runFrom env fuel .process_email (initialState em)

/-! ## Dispatcher bookkeeping (`email_listener.py` lines 555-655)

`_process_new_emails` marks the batch read on the transport (a side effect on
the server, not on this state) and then submits the whole `emails` list as a
single `executor.submit(self._execute_callback, emails)` future; `pending`
models `len(self._pending_futures)` and the `stats` counters are copied
verbatim.  `_on_task_complete` is the done-callback of one future; it runs
whether or not the unit raised (exceptions inside `_execute_callback` are
caught and logged there, and even an escaped exception still completes the
future). -/

structure DispatcherState where
  total_received : Nat
  pending : Nat
  processing_tasks : Nat
  completed_tasks : Nat
deriving DecidableEq, Repr

/-- Returns the new dispatcher state together with the number of units of
work submitted to the pool for this batch. -/
def process_new_emails (st : DispatcherState) (emails : List EmailMsg) :
    DispatcherState × Nat :=
  if emails.isEmpty then (st, 0)
  else
    ({ total_received := st.total_received + emails.length
       pending := st.pending + 1
       processing_tasks := st.pending + 1
       completed_tasks := st.completed_tasks }, 1)

/-- Callback `_on_task_complete`: the future is removed from the pending list and the
completed counter is incremented unconditionally — `unitFailed` (whether
`future.exception()` is set) only affects logging. -/
def on_task_complete (st : DispatcherState) (_unitFailed : Bool) : DispatcherState :=
  { total_received := st.total_received
    pending := st.pending - 1
    processing_tasks := st.pending - 1
    completed_tasks := st.completed_tasks + 1 }

def dispatcherInit : DispatcherState :=
  { total_received := 0, pending := 0, processing_tasks := 0, completed_tasks := 0 }

/-! ## Listener start-up mode (`email_listener.py` lines 101-258) -/

inductive ListenerMode where
  | idle
  | polling
  | stopped
deriving DecidableEq, Repr

/-- Capabilities of the transport relevant to real-time wait: whether the
server advertises `IDLE` and whether the handshake (`... IDLE` answered by a
line starting with `+`) succeeds. -/
structure TransportCaps where
  supportsIdle : Bool
  idleHandshakeOk : Bool
deriving DecidableEq, Repr

/-- Method `EmailListener.start` lines 145-160: `self.mode` is assigned the constant
`ListenerMode.POLLING` (the `IDLE` assignment is commented out), and
`_run_listener` (lines 205-258) only ever calls `_run_polling_mode_safe`;
every call site of `_try_idle_mode` is commented out.  The chosen mode is
therefore independent of the transport's capabilities. -/
def listenerStartMode (_caps : TransportCaps) : ListenerMode :=
  ListenerMode.polling

/-- The entry decision of `_try_idle_mode` (lines 260-306), which the running
code never reaches: it would enter IDLE exactly when the server advertises
`IDLE` and the handshake response starts with `+`. -/
def tryIdleModeWouldSucceed (caps : TransportCaps) : Bool :=
  caps.supportsIdle && caps.idleHandshakeOk

/-! ## Dedup cache (`system_init.py` lines 143-159)

`_processed_emails` is a Python `set` of message-id strings with a size cap
of 1000; when an insertion pushes the size past the cap, `list(set)[:500]`
is removed in one batch.  A Python set's iteration order is unspecified (it
is hash-order, not insertion order); the model fixes iteration order to
insertion order, which determines *which* ids are evicted but not *how many*
— every size-related statement below is independent of that choice.  Message
ids carry only decidable equality here, so `Nat` stands in for the id
strings. -/

def on_new_email_step (cache : List Nat) (i : Nat) : List Nat :=
  if i ∈ cache then cache
  else
    let c := cache ++ [i]
    if 1000 < c.length then c.drop 500 else c

/-- Processing a list of incoming message ids in order (the loop of
`on_new_email`). -/
def on_new_email_run (cache : List Nat) (ids : List Nat) : List Nat :=
  ids.foldl on_new_email_step cache

/-- The cache-size recurrence induced by inserting fresh (not yet cached)
ids one at a time, starting from an empty cache. -/
def cacheSizeAfter : Nat → Nat
  | 0 => 0
  | n + 1 =>
    let s := cacheSizeAfter n + 1
    if 1000 < s then s - 500 else s

/-! ## Concrete scenario inputs -/

/-- A message the assistant mailbox sent to itself (echo candidate). -/
def emSelf : EmailMsg :=
  { msg_id := "m1", subject := "loop", from_email := "assistant@example.com"
    from_name := "Assistant", to_email := "assistant@example.com"
    date := "2026-01-01", body := "echo" }

/-- A message from an unauthorized third party. -/
def emOther : EmailMsg :=
  { msg_id := "m2", subject := "ad", from_email := "stranger@example.com"
    from_name := "Stranger", to_email := "assistant@example.com"
    date := "2026-01-02", body := "buy now" }

/-- A message from the configured master sender (Scenario A shape). -/
def emMaster : EmailMsg :=
  { msg_id := "m3", subject := "Translate this", from_email := "master@example.com"
    from_name := "Master", to_email := "assistant@example.com"
    date := "2026-01-03", body := "hello" }

/-- An environment with constant oracles. -/
def envPlain (outcome : LlmOutcome) (sendr : SendResult) : Env :=
  { master := "master@example.com"
    assistant := "assistant@example.com"
    llm := fun _ => outcome
    exec := fun _ => "tool-ok"
    send := fun _ => sendr }

/-- Scenario A: the language model answers with plain content. -/
def envA : Env := envPlain (.ok (Msg.ai "你好" [])) .ok

/-- Scenario D: the language model invocation raises. -/
def envErr : Env := envPlain (.error "boom") .ok

/-- An environment whose language model must never be consulted. -/
def envIgnore : Env := envPlain (.error "llm must not be invoked") .ok

/-- Final state of the self-sent run `runWorkflow envIgnore 3 emSelf`. -/
def finalSelf : TaskState :=
  { messages := [Msg.human "Ignore email : Self-sent email"]
    status := "email_proccessed", email_message := some emSelf
    error := "", email_replied := true, subject := none }

/-- Final state of the unauthorized-sender run `runWorkflow envIgnore 3 emOther`. -/
def finalOther : TaskState :=
  { messages := [Msg.human "It\x27s not master\x27s email, No need to reply to the email."]
    status := "email_proccessed", email_message := some emOther
    error := "", email_replied := true, subject := none }

/-- Final state of the Scenario A run `runWorkflow envA 5 emMaster`. -/
def finalA : TaskState :=
  { messages := [Msg.ai "你好" [], Msg.human "Email has been send"]
    status := "email_proccessed", email_message := some emMaster
    error := "", email_replied := true, subject := some "回复:Translate this" }

/-- The email sent in Scenario A. -/
def outA : OutgoingEmail :=
  { to_email := "master@example.com", subject := some "回复:Translate this"
    content := "你好" }

/-- Final state of the Scenario D run `runWorkflow envErr 5 emMaster`. -/
def finalErr : TaskState :=
  { messages := [Msg.human ("Sorry , Agent process email error, detail as below: "
      ++ "boom" ++ ",please try again later!"), Msg.human "Email has been send"]
    status := "email_proccessed", email_message := some emMaster
    error := "boom", email_replied := true, subject := some "Agent process email error" }

/-- The email sent in Scenario D: the body is the fixed placeholder. -/
def outErr : OutgoingEmail :=
  { to_email := "master@example.com", subject := some "Agent process email error"
    content := placeholderBody }

/-- A Task state that was re-entered with its replied flag already set. -/
def stReplied : TaskState :=
  { messages := [], status := "", email_message := some emMaster
    error := "", email_replied := true, subject := none }

/-- Final state of the re-entered run `runFrom envIgnore 3 .process_email
stReplied`. -/
def finalReplied : TaskState :=
  { messages := [Msg.human "Email already replied, skipping duplicate processing"]
    status := "email_proccessed", email_message := some emMaster
    error := "", email_replied := true, subject := none }

/-- A Task state about to enter the send step (Scenario A, after the
language model answered with plain content). -/
def stSend : TaskState :=
  { messages := [Msg.ai "你好" []], status := "agent_replied"
    email_message := some emMaster, error := "", email_replied := false
    subject := some "回复:Translate this" }

/-! ## Helper lemmas about the graph runner -/

theorem runFrom_process_step (env : Env) (fuel : Nat) (st : TaskState) :
    runFrom env (fuel + 1) .process_email st =
      runFrom env fuel
        (match route_after_process (applyUpdate st (process_email env st)) with
          | .tools => Node.tools
          | .send_email => Node.send_email
          | .mark_as_replied => Node.mark_as_replied)
        (applyUpdate st (process_email env st)) := rfl

theorem runFrom_tools_step (env : Env) (fuel : Nat) (st : TaskState) :
    runFrom env (fuel + 1) .tools st =
      runFrom env fuel .process_email (applyUpdate st (tools_node_update env st)) := rfl

theorem runFrom_send_step (env : Env) (fuel : Nat) (st : TaskState) :
    runFrom env (fuel + 1) .send_email st =
      (runFrom env fuel .mark_as_replied
          (applyUpdate st (send_email_update (env.send (composeOutgoing env.master st))))).map
        (fun p => (p.1, composeOutgoing env.master st :: p.2)) := rfl

theorem runFrom_mark_step (env : Env) (fuel : Nat) (st : TaskState) :
    runFrom env (fuel + 1) .mark_as_replied st =
      runFrom env fuel .done (applyUpdate st mark_as_replied_update) := rfl

theorem runFrom_mark_eq (env : Env) (st : TaskState) :
    ∀ fuel final sent, runFrom env fuel .mark_as_replied st = some (final, sent) →
      final = applyUpdate st mark_as_replied_update ∧ sent = [] := by
  intro fuel final sent h
  match fuel, h with
  | 0, h => simp [runFrom] at h
  | 1, h => simp [runFrom] at h
  | n + 2, h =>
    simp only [runFrom] at h
    exact ⟨(Prod.mk.injEq _ _ _ _ ▸ Option.some.inj h).1.symm,
      (Prod.mk.injEq _ _ _ _ ▸ Option.some.inj h).2.symm⟩

theorem applyUpdate_mark (st : TaskState) :
    (applyUpdate st mark_as_replied_update).email_replied = true ∧
    (applyUpdate st mark_as_replied_update).status = "email_proccessed" ∧
    (applyUpdate st mark_as_replied_update).error = st.error := by
  refine ⟨rfl, rfl, rfl⟩

/-- The `mark_as_replied → END` tail of the graph consults no oracle. -/
theorem runFrom_mark_env (env env' : Env) (fuel : Nat) (st : TaskState) :
    runFrom env fuel .mark_as_replied st = runFrom env' fuel .mark_as_replied st := by
  match fuel with
  | 0 => rfl
  | 1 => rfl
  | n + 2 => rfl

/-- Every successful run from a non-terminal node ends in the state written
by `mark_as_replied`: `email_replied = true`, `status = "email_proccessed"`. -/
theorem runFrom_some_terminal (env : Env) :
    ∀ fuel node st final sent, node ≠ Node.done →
      runFrom env fuel node st = some (final, sent) →
      final.email_replied = true ∧ final.status = "email_proccessed" := by
  intro fuel
  induction fuel with
  | zero => intro node st final sent _ h; simp [runFrom] at h
  | succ n ih =>
    intro node st final sent hne h
    cases node with
    | done => exact absurd rfl hne
    | process_email =>
      simp only [runFrom] at h
      rcases hr : route_after_process (applyUpdate st (process_email env st)) with _ | _ | _ <;>
        rw [hr] at h <;> exact ih _ _ _ _ (by simp) h
    | tools =>
      simp only [runFrom] at h
      exact ih _ _ _ _ (by simp) h
    | send_email =>
      simp only [runFrom] at h
      rcases Option.map_eq_some'.mp h with ⟨⟨f1, s1⟩, hp, hfs⟩
      have := ih .mark_as_replied _ f1 s1 (by simp) hp
      have hf : f1 = final := congrArg Prod.fst hfs
      exact hf ▸ this
    | mark_as_replied =>
      simp only [runFrom] at h
      match n, h with
      | 0, h => simp [runFrom] at h
      | m + 1, h =>
        simp only [runFrom] at h
        have hf : applyUpdate st mark_as_replied_update = final :=
          congrArg Prod.fst (Option.some.inj h)
        exact hf ▸ ⟨(applyUpdate_mark st).1, (applyUpdate_mark st).2.1⟩

/-! ## Claim theorems -/

/-- C1: a Task re-entered with `email_replied` already true, and likewise a
Task whose last conversation turn is a (in particular a successful)
tool-result of the `send_email_simple` send action, short-circuits straight
to the `Recorded` terminal state: the run never consults the language-model
oracle, hands nothing to the SMTP service, and ends with
`email_replied = true` and status `email_proccessed`. -/
theorem replied_or_sent_task_short_circuits (env : Env) (st : TaskState)
    (hmsg : st.email_message ≠ none)
    (hcase : st.email_replied = true ∨ lastIsSendToolResult st.messages = true)
    (fuel : Nat) :
    (∀ f, runFrom { env with llm := f } fuel .process_email st
        = runFrom env fuel .process_email st) ∧
    (∀ final sent, runFrom env fuel .process_email st = some (final, sent) →
      sent = [] ∧ final.email_replied = true ∧ final.status = "email_proccessed") := by
  obtain ⟨em, hem⟩ : ∃ em, st.email_message = some em := by
    cases h : st.email_message with
    | none => exact absurd h hmsg
    | some em => exact ⟨em, rfl⟩
  have hupd : ∀ env' : Env, process_email env' st = process_email env st := by
    intro env'
    rcases hcase with hrep | hsend
    · simp [process_email, hem, hrep]
    · by_cases hrep : st.email_replied = true <;>
        simp [process_email, hem, hrep, hsend]
  have hrep' : (applyUpdate st (process_email env st)).email_replied = true := by
    rcases hcase with hrep | hsend
    · simp [process_email, hem, hrep, applyUpdate]
    · by_cases hrep : st.email_replied = true <;>
        simp [process_email, hem, hrep, hsend, applyUpdate]
  have hroute : route_after_process (applyUpdate st (process_email env st))
      = .mark_as_replied := by
    simp [route_after_process, hrep']
  cases fuel with
  | zero => exact ⟨fun f => rfl, fun final sent h => by simp [runFrom] at h⟩
  | succ n =>
    constructor
    · intro f
      rw [runFrom_process_step, runFrom_process_step, hupd { env with llm := f }, hroute]
      exact runFrom_mark_env _ _ _ _
    · intro final sent h
      rw [runFrom_process_step, hroute] at h
      obtain ⟨hfinal, hsent⟩ := runFrom_mark_eq env _ n final sent h
      exact ⟨hsent, hfinal ▸ (applyUpdate_mark _).1, hfinal ▸ (applyUpdate_mark _).2.1⟩

/-- C2 refuted as stated: a self-sent message is routed to the terminal
state with no reply, but a conversation turn IS added — the ignore-notice
string returned under the `messages` key is coerced by the `add_messages`
reducer into a human-role turn.  The final Task holds one conversation turn
where the claim requires zero. -/
theorem ignored_message_adds_turn_counterexample :
    (runWorkflow envIgnore 3 emSelf).map (fun p => (p.1.messages, p.1.email_replied, p.2))
      = some ([Msg.human "Ignore email : Self-sent email"], true, []) ∧
    ([Msg.human "Ignore email : Self-sent email"] : List Msg) ≠ [] := by
  exact ⟨rfl, by simp⟩

/-- C2 amended: a message whose sender differs from the configured master
sender, or equals the system's own outbound address, is routed directly to
the `Recorded` terminal state — the language-model oracle is never
consulted and nothing is handed to the SMTP service — but exactly one
conversation turn is added to the Task: the ignore notice, coerced into a
human-role turn by the messages reducer. -/
theorem unauthorized_or_self_routed_to_recorded (env : Env) (em : EmailMsg)
    (hcase : em.from_email ≠ env.master ∨ em.from_email = env.assistant)
    (fuel : Nat) :
    (∀ f, runWorkflow { env with llm := f } fuel em = runWorkflow env fuel em) ∧
    (∀ final sent, runWorkflow env fuel em = some (final, sent) →
      sent = [] ∧ final.email_replied = true ∧ final.status = "email_proccessed" ∧
      final.messages = [Msg.human (if em.from_email = env.assistant then
          "Ignore email : Self-sent email"
        else "It\x27s not master\x27s email, No need to reply to the email.")]) := by
  have hupd : ∀ env' : Env, env'.master = env.master → env'.assistant = env.assistant →
      process_email env' (initialState em) = process_email env (initialState em) := by
    intro env' hm ha
    by_cases hself : em.from_email = env.assistant
    · simp [process_email, initialState, lastIsSendToolResult, hself, hm, ha]
    · have hmaster : ¬ em.from_email = env.master := by
        rcases hcase with h | h
        · exact h
        · exact absurd h hself
      simp [process_email, initialState, lastIsSendToolResult, hself, hmaster, hm, ha]
  have hmsgs : (applyUpdate (initialState em) (process_email env (initialState em))).messages
      = [Msg.human (if em.from_email = env.assistant then "Ignore email : Self-sent email"
          else "It\x27s not master\x27s email, No need to reply to the email.")] ∧
      (applyUpdate (initialState em) (process_email env (initialState em))).email_replied
        = false ∧
      (applyUpdate (initialState em) (process_email env (initialState em))).status
        = "ignored" := by
    by_cases hself : em.from_email = env.assistant
    · simp [process_email, initialState, lastIsSendToolResult, hself, applyUpdate, addMessages]
    · have hmaster : ¬ em.from_email = env.master := by
        rcases hcase with h | h
        · exact h
        · exact absurd h hself
      simp [process_email, initialState, lastIsSendToolResult, hself, hmaster,
        applyUpdate, addMessages]
  have hroute : route_after_process (applyUpdate (initialState em)
      (process_email env (initialState em))) = .mark_as_replied := by
    simp [route_after_process, hmsgs.2.1, hmsgs.2.2]
  cases fuel with
  | zero => exact ⟨fun f => rfl, fun final sent h => by simp [runWorkflow, runFrom] at h⟩
  | succ n =>
    constructor
    · intro f
      show runFrom _ _ .process_email _ = runFrom _ _ .process_email _
      rw [runFrom_process_step, runFrom_process_step, hupd { env with llm := f } rfl rfl,
        hroute]
      exact runFrom_mark_env _ _ _ _
    · intro final sent h
      rw [runWorkflow, runFrom_process_step, hroute] at h
      obtain ⟨hfinal, hsent⟩ := runFrom_mark_eq env _ n final sent h
      refine ⟨hsent, hfinal ▸ (applyUpdate_mark _).1, hfinal ▸ (applyUpdate_mark _).2.1, ?_⟩
      rw [hfinal]
      show (applyUpdate _ mark_as_replied_update).messages = _
      simpa [applyUpdate, mark_as_replied_update] using hmsgs.1

/-- C3 refuted as stated: when the language model raises `"boom"` during the
deciding step, the workflow does transition to the send step and the Task
does reach the terminal state with `email_replied = true`, but the body of
the reply actually handed to the SMTP service is the fixed placeholder
`placeholderBody`, which does not contain the failure detail — the
synthesized apology (which does contain it) is coerced into a human-role
turn, and the send step only extracts assistant-role content. -/
theorem llm_error_reply_body_counterexample :
    (runWorkflow envErr 5 emMaster).map (fun p => p.2) = some [outErr] ∧
    outErr.content = placeholderBody ∧
    ¬ "boom".toList <:+: placeholderBody.toList ∧
    (runWorkflow envErr 5 emMaster).map (fun p => p.1.email_replied) = some true := by
  exact ⟨rfl, rfl, by decide, rfl⟩

/-- Appending a human-role turn leaves the backwards assistant-content scan
unchanged. -/
theorem lastAiContent_concat_human (l : List Msg) (s : String) :
    lastAiContent (l ++ [Msg.human s]) = lastAiContent l := by
  induction l with
  | nil => rfl
  | cons m ms ih => simp [lastAiContent, ih]

/-- Appending any single message makes it the last element. -/
theorem msgs_getLast_concat (l : List Msg) (m : Msg) :
    (l ++ [m]).getLast? = some m := by
  simp

/-- C3 amended: for ANY Task state entering the deciding step (first entry,
or re-entry after tool rounds), an uncaught language-model error transitions
the workflow directly to the send step with subject
`"Agent process email error"`; the synthesized apologetic text containing
the error detail is appended to the conversation as a human-role turn, and
when the send succeeds the detail remains recorded in the Task\x27s `error`
field — but the sent body does NOT contain the detail: it is the most recent
assistant-response content predating the error when that is nonempty, and
the fixed placeholder otherwise; the Task still reaches the terminal state
with `email_replied = true`. -/
theorem llm_error_fallback_reply (env : Env) (st : TaskState) (em : EmailMsg)
    (e : String)
    (hmsg : st.email_message = some em) (hrep : st.email_replied = false)
    (hlast : lastIsSendToolResult st.messages = false)
    (hm : em.from_email = env.master) (hs : em.from_email ≠ env.assistant)
    (hllm : env.llm (if st.messages.length = 0 then
        [Msg.system (systemPrompt env.master), Msg.human (emailContent em)]
      else st.messages) = .error e) (fuel : Nat) :
    ∀ final sent, runFrom env fuel .process_email st = some (final, sent) →
      sent = [{ to_email := env.master, subject := some "Agent process email error"
                content := if (lastAiContent st.messages).getD "" = ""
                  then placeholderBody else (lastAiContent st.messages).getD "" }] ∧
      final.email_replied = true ∧ final.status = "email_proccessed" ∧
      Msg.human ("Sorry , Agent process email error, detail as below: " ++ e
        ++ ",please try again later!") ∈ final.messages ∧
      (env.send { to_email := env.master, subject := some "Agent process email error"
                  content := if (lastAiContent st.messages).getD "" = ""
                    then placeholderBody else (lastAiContent st.messages).getD "" }
          = .ok → final.error = e) := by
  intro final sent h
  have hs2 : ¬ env.master = env.assistant := hm ▸ hs
  have hllm2 : env.llm (if st.messages = [] then
      [Msg.system (systemPrompt env.master), Msg.human (emailContent em)]
    else st.messages) = .error e := by
    simpa [List.length_eq_zero] using hllm
  have hupd : process_email env st =
      { status := some "agent_processed_failed"
        error := some e
        subject := some (some "Agent process email error")
        messages := some (.str ("Sorry , Agent process email error, detail as below: "
          ++ e ++ ",please try again later!"))
        email_replied := some false } := by
    simp [process_email, hmsg, hrep, hlast, hs, hs2, hm, hllm2]
  cases fuel with
  | zero => simp [runFrom] at h
  | succ n =>
    rw [runFrom_process_step, hupd] at h
    set st1 : TaskState := applyUpdate st
      { status := some "agent_processed_failed"
        error := some e
        subject := some (some "Agent process email error")
        messages := some (.str ("Sorry , Agent process email error, detail as below: "
          ++ e ++ ",please try again later!"))
        email_replied := some false } with hst1
    have hroute : route_after_process st1 = .send_email := by
      simp [route_after_process, hst1, applyUpdate, addMessages, msgs_getLast_concat,
        Msg.toolCallsTruthy]
    rw [hroute] at h
    cases n with
    | zero => simp [runFrom] at h
    | succ n2 =>
      rw [runFrom_send_step] at h
      rcases Option.map_eq_some'.mp h with ⟨⟨f1, s1⟩, hp, hfs⟩
      obtain ⟨hfinal, hsent⟩ := runFrom_mark_eq env _ n2 f1 s1 hp
      obtain ⟨hf, hsnt⟩ := Prod.mk.injEq _ _ _ _ ▸ hfs
      subst hsent
      have hout : composeOutgoing env.master st1 =
          { to_email := env.master, subject := some "Agent process email error"
            content := if (lastAiContent st.messages).getD "" = ""
              then placeholderBody else (lastAiContent st.messages).getD "" } := by
        simp [composeOutgoing, hst1, applyUpdate, addMessages, lastAiContent_concat_human]
      refine ⟨by rw [← hsnt, hout], ?_, ?_, ?_, ?_⟩
      · rw [← hf, hfinal]; exact (applyUpdate_mark _).1
      · rw [← hf, hfinal]; exact (applyUpdate_mark _).2.1
      · rw [← hf, hfinal]
        show Msg.human _ ∈ (applyUpdate (applyUpdate st1 _) mark_as_replied_update).messages
        cases hso : env.send (composeOutgoing env.master st1) <;>
          simp [applyUpdate, mark_as_replied_update, send_email_update, hso, hst1,
            addMessages]
      · intro hok
        rw [← hout] at hok
        rw [← hf, hfinal, hok]
        simp [applyUpdate, mark_as_replied_update, send_email_update, hst1]

/-- C4 refuted as stated: a batch of N = 2 newly detected messages is NOT
enqueued as 2 independent units of work — `_process_new_emails` submits the
whole list as a single future — and after that unit completes the
completed-task count has increased by 1, not by N = 2. -/
theorem batch_submitted_as_one_unit_counterexample :
    process_new_emails dispatcherInit [emSelf, emOther]
      = ({ total_received := 2, pending := 1, processing_tasks := 1
           completed_tasks := 0 }, 1) ∧
    (1 : Nat) ≠ 2 ∧
    (on_task_complete (process_new_emails dispatcherInit [emSelf, emOther]).1
        false).completed_tasks = 1 := by
  exact ⟨rfl, by simp, rfl⟩

/-- C4 amended: a nonempty batch of newly detected messages is submitted as
a single unit of work on the worker pool; the submit call itself does not
wait for completion (the completed count is unchanged at submit time), and
the completed-task count increases by exactly one when the unit's
done-callback fires, regardless of whether the unit failed. -/
theorem batch_submit_completion_accounting (st : DispatcherState)
    (emails : List EmailMsg) (failed : Bool) (hne : emails ≠ []) :
    (process_new_emails st emails).2 = 1 ∧
    (process_new_emails st emails).1.completed_tasks = st.completed_tasks ∧
    (process_new_emails st emails).1.total_received
      = st.total_received + emails.length ∧
    (on_task_complete (process_new_emails st emails).1 failed).completed_tasks
      = st.completed_tasks + 1 := by
  have h : emails.isEmpty = false := by
    cases emails with
    | nil => exact absurd rfl hne
    | cons a l => rfl
  refine ⟨?_, ?_, ?_, ?_⟩ <;> simp [process_new_emails, on_task_complete, h]

/-! ## Dedup cache lemmas -/

theorem on_new_email_step_length {cache : List Nat} {i : Nat} (h : i ∉ cache) :
    (on_new_email_step cache i).length =
      if 1000 < cache.length + 1 then cache.length + 1 - 500
      else cache.length + 1 := by
  simp only [on_new_email_step, if_neg h]
  by_cases h1 : 1000 < cache.length + 1 <;>
    simp [h1, List.length_append, List.length_drop]

theorem on_new_email_step_subset {cache : List Nat} {i : Nat} :
    ∀ x ∈ on_new_email_step cache i, x ∈ cache ∨ x = i := by
  intro x hx
  simp only [on_new_email_step] at hx
  split at hx
  · exact .inl hx
  · split at hx
    · have := List.mem_of_mem_drop hx
      rcases List.mem_append.mp this with h | h
      · exact .inl h
      · exact .inr (by simpa using h)
    · rcases List.mem_append.mp hx with h | h
      · exact .inl h
      · exact .inr (by simpa using h)

/-- Feeding the first `n` distinct fresh ids into the cache loop yields a
cache whose size follows `cacheSizeAfter` and whose members are all below
`n`. -/
theorem on_new_email_run_range (n : Nat) :
    (on_new_email_run [] (List.range n)).length = cacheSizeAfter n ∧
      ∀ x ∈ on_new_email_run [] (List.range n), x < n := by
  induction n with
  | zero => simp [on_new_email_run, cacheSizeAfter]
  | succ m ih =>
    have hfold : on_new_email_run [] (List.range (m + 1))
        = on_new_email_step (on_new_email_run [] (List.range m)) m := by
      simp [on_new_email_run, List.range_succ, List.foldl_append]
    have hfresh : m ∉ on_new_email_run [] (List.range m) := fun hm =>
      absurd (ih.2 m hm) (lt_irrefl m)
    constructor
    · rw [hfold, on_new_email_step_length hfresh, ih.1]
      simp [cacheSizeAfter]
    · intro x hx
      rw [hfold] at hx
      rcases on_new_email_step_subset x hx with h | h
      · exact Nat.lt_succ_of_lt (ih.2 x h)
      · exact h ▸ Nat.lt_succ_self m

theorem cacheSizeAfter_le (n : Nat) : cacheSizeAfter n ≤ 1000 := by
  induction n with
  | zero => simp [cacheSizeAfter]
  | succ m ih =>
    simp only [cacheSizeAfter]
    by_cases h : 1000 < cacheSizeAfter m + 1 <;> simp [h] <;> omega

theorem cacheSizeAfter_grow (k : Nat) : ∀ n, cacheSizeAfter n + k ≤ 1000 →
    cacheSizeAfter (n + k) = cacheSizeAfter n + k := by
  induction k with
  | zero => intro n _; rfl
  | succ m ih =>
    intro n h
    have hm := ih n (by omega)
    show cacheSizeAfter (n + m + 1) = _
    simp only [cacheSizeAfter]
    rw [hm, if_neg (by omega)]
    omega

theorem cacheSizeAfter_evict (n : Nat) (h : cacheSizeAfter n = 1000) :
    cacheSizeAfter (n + 1) = 501 := by
  simp only [cacheSizeAfter]
  rw [h, if_pos (by omega)]

theorem cacheSizeAfter_cycle (n : Nat) (h : cacheSizeAfter n = 1000) :
    cacheSizeAfter (n + 1) = 501 ∧ cacheSizeAfter (n + 500) = 1000 := by
  have h1 := cacheSizeAfter_evict n h
  refine ⟨h1, ?_⟩
  have h2 : n + 500 = (n + 1) + 499 := by omega
  rw [h2, cacheSizeAfter_grow 499 (n + 1) (by omega), h1]

theorem cacheSizeAfter_zero : cacheSizeAfter 0 = 0 := rfl

theorem cacheSizeAfter_1000 : cacheSizeAfter 1000 = 1000 := by
  have h := cacheSizeAfter_grow 1000 0 (by rw [cacheSizeAfter_zero])
  rw [cacheSizeAfter_zero] at h
  simpa using h

theorem cacheSizeAfter_2000 : cacheSizeAfter 2000 = 1000 := by
  have h1500 : cacheSizeAfter 1500 = 1000 :=
    (cacheSizeAfter_cycle 1000 cacheSizeAfter_1000).2
  exact (cacheSizeAfter_cycle 1500 h1500).2

theorem cacheSizeAfter_2001 : cacheSizeAfter 2001 = 501 :=
  (cacheSizeAfter_cycle 2000 cacheSizeAfter_2000).1

/-- C5 refuted as stated: insert the 2C + 1 = 2001 distinct ids
`0, …, 2000` (cap C = 1000) into an empty cache.  The 2001st insertion
pushes the size to 1001 and triggers an eviction (the size observed after
the 2000th insertion is the full cap), and immediately after that eviction
the cache holds 501 ids — strictly below C, contradicting "never drops
below C immediately after an eviction". -/
theorem dedup_eviction_drops_below_cap_counterexample :
    (on_new_email_run [] (List.range 2000)).length = 1000 ∧
    (on_new_email_run [] (List.range 2001)).length = 501 ∧
    ¬ (1000 : Nat) ≤ 501 := by
  refine ⟨?_, ?_, by simp⟩
  · rw [(on_new_email_run_range 2000).1]; exact cacheSizeAfter_2000
  · rw [(on_new_email_run_range 2001).1]; exact cacheSizeAfter_2001

/-- C5 amended: with cap C = 1000, after inserting any number of distinct
fresh ids the cache size observed between insertions never exceeds C (a
fortiori never exceeds 2C), and whenever an insertion pushes the size past
the cap, half of the cap's worth of entries (500 ids, taken in one batch in
set-iteration order, not necessarily the oldest) is evicted, leaving
exactly C/2 + 1 = 501 entries — strictly below C. -/
theorem dedup_cache_bound (n : Nat) :
    (on_new_email_run [] (List.range n)).length ≤ 1000 ∧
    (1000 < cacheSizeAfter n + 1 →
      (on_new_email_run [] (List.range (n + 1))).length = 501) := by
  constructor
  · rw [(on_new_email_run_range n).1]; exact cacheSizeAfter_le n
  · intro h
    rw [(on_new_email_run_range (n + 1)).1]
    have hle := cacheSizeAfter_le n
    simp only [cacheSizeAfter]
    rw [if_pos h]
    omega

/-- C5 amended witness: at n = 2000 the next insertion triggers an eviction
and the resulting size is 501. -/
theorem dedup_cache_bound_witness :
    (on_new_email_run [] (List.range 2000)).length ≤ 1000 ∧
    (on_new_email_run [] (List.range 2001)).length = 501 :=
  ⟨(dedup_cache_bound 2000).1,
    (dedup_cache_bound 2000).2 (by rw [cacheSizeAfter_2000]; omega)⟩

/-- C8 refuted as stated: even for a transport that supports real-time wait
and whose handshake would succeed, `EmailListener.start` still puts the
Watcher in Polling mode — the assignment of IDLE mode is commented out and
`_run_listener` never calls `_try_idle_mode`. -/
theorem start_mode_ignores_idle_support_counterexample :
    listenerStartMode { supportsIdle := true, idleHandshakeOk := true }
      = ListenerMode.polling ∧
    ListenerMode.polling ≠ ListenerMode.idle ∧
    tryIdleModeWouldSucceed { supportsIdle := true, idleHandshakeOk := true } = true := by
  exact ⟨rfl, by simp, rfl⟩

/-- C8 amended: on startup the Watcher always enters Polling mode,
independently of whether the transport supports real-time wait or whether
the handshake would succeed; the disabled real-time entry check would
succeed exactly when the server advertises IDLE and the handshake answers
with `+`.  Polling is thus the only (and default) mode and works
standalone. -/
theorem start_mode_always_polling (caps : TransportCaps) :
    listenerStartMode caps = ListenerMode.polling ∧
    (tryIdleModeWouldSucceed caps = true ↔
      caps.supportsIdle = true ∧ caps.idleHandshakeOk = true) := by
  exact ⟨rfl, by simp [tryIdleModeWouldSucceed]⟩

/-- C6: an authorized message answered by the language model with plain
content `c` leads to exactly one outgoing reply whose subject is the reply
prefix `"回复:"` concatenated with the original subject and whose body is
`c`, the last assistant-response content — or the fixed placeholder when
that content is empty. -/
theorem plain_reply_subject_and_body (env : Env) (em : EmailMsg) (c : String)
    (hm : em.from_email = env.master) (hs : em.from_email ≠ env.assistant)
    (hllm : env.llm [Msg.system (systemPrompt env.master), Msg.human (emailContent em)]
      = .ok (Msg.ai c [])) (fuel : Nat) :
    ∀ final sent, runWorkflow env fuel em = some (final, sent) →
      sent = [{ to_email := env.master, subject := some ("回复:" ++ em.subject)
                content := if c = "" then placeholderBody else c }] ∧
      final.email_replied = true ∧ final.status = "email_proccessed" := by
  intro final sent h
  have hs2 : ¬ env.master = env.assistant := hm ▸ hs
  have hupd : process_email env (initialState em) =
      { messages := some (.list [Msg.ai c []])
        status := some "agent_replied"
        email_replied := some false
        subject := some (some ("回复:" ++ em.subject)) } := by
    simp [process_email, initialState, lastIsSendToolResult, hs, hs2, hm, hllm]
  cases fuel with
  | zero => simp [runWorkflow, runFrom] at h
  | succ n =>
    rw [runWorkflow, runFrom_process_step, hupd] at h
    set st1 : TaskState := applyUpdate (initialState em)
      { messages := some (.list [Msg.ai c []])
        status := some "agent_replied"
        email_replied := some false
        subject := some (some ("回复:" ++ em.subject)) } with hst1
    have hroute : route_after_process st1 = .send_email := by
      simp [route_after_process, hst1, applyUpdate, addMessages, initialState,
        Msg.toolCallsTruthy]
    rw [hroute] at h
    cases n with
    | zero => simp [runFrom] at h
    | succ n2 =>
      rw [runFrom_send_step] at h
      rcases Option.map_eq_some'.mp h with ⟨⟨f1, s1⟩, hp, hfs⟩
      obtain ⟨hfinal, hsent⟩ := runFrom_mark_eq env _ n2 f1 s1 hp
      obtain ⟨hf, hsnt⟩ := Prod.mk.injEq _ _ _ _ ▸ hfs
      subst hsent
      have hout : composeOutgoing env.master st1 =
          { to_email := env.master, subject := some ("回复:" ++ em.subject)
            content := if c = "" then placeholderBody else c } := by
        simp [composeOutgoing, hst1, applyUpdate, addMessages, initialState,
          lastAiContent, Msg.aiContent]
      exact ⟨by rw [← hsnt, hout],
        by rw [← hf, hfinal]; exact (applyUpdate_mark _).1,
        by rw [← hf, hfinal]; exact (applyUpdate_mark _).2.1⟩

/-- C7: once the workflow is in the send step, exactly one email is handed
to the SMTP service and — whatever the outcome — the Task transitions to the
recorded terminal state; on success the Task's `error` field is untouched,
and on failure or exception the failure detail is recorded in it.  No second
send ever happens from this state (no inline retry). -/
theorem send_outcome_recorded (env : Env) (st : TaskState) (fuel : Nat) :
    ∀ final sent, runFrom env fuel .send_email st = some (final, sent) →
      sent = [composeOutgoing env.master st] ∧
      final.email_replied = true ∧ final.status = "email_proccessed" ∧
      (env.send (composeOutgoing env.master st) = .ok → final.error = st.error) ∧
      (∀ m, env.send (composeOutgoing env.master st) = .failed m → final.error = m) ∧
      (∀ e, env.send (composeOutgoing env.master st) = .raised e → final.error = e) := by
  intro final sent h
  cases fuel with
  | zero => simp [runFrom] at h
  | succ n =>
    rw [runFrom_send_step] at h
    rcases Option.map_eq_some'.mp h with ⟨⟨f1, s1⟩, hp, hfs⟩
    obtain ⟨hfinal, hsent⟩ := runFrom_mark_eq env _ n f1 s1 hp
    obtain ⟨hf, hsnt⟩ := Prod.mk.injEq _ _ _ _ ▸ hfs
    subst hsent
    refine ⟨by rw [← hsnt], ?_, ?_, ?_, ?_, ?_⟩
    · rw [← hf, hfinal]; exact (applyUpdate_mark _).1
    · rw [← hf, hfinal]; exact (applyUpdate_mark _).2.1
    · intro hok
      rw [← hf, hfinal]
      simp [applyUpdate, mark_as_replied_update, send_email_update, hok]
    · intro m hfl
      rw [← hf, hfinal]
      simp [applyUpdate, mark_as_replied_update, send_email_update, hfl]
    · intro e hrs
      rw [← hf, hfinal]
      simp [applyUpdate, mark_as_replied_update, send_email_update, hrs]

/-- C9: every terminating workflow run — including runs for unauthorized or
self-sent messages that send nothing — passes through `mark_as_replied` and
ends with `email_replied = true` and status `email_proccessed`; the second
conjunct exhibits such a run with zero emails sent, so a final
`email_replied = true` does not imply a reply was actually sent. -/
theorem terminated_run_always_marked (env : Env) (fuel : Nat) (em : EmailMsg) :
    (∀ final sent, runWorkflow env fuel em = some (final, sent) →
      final.email_replied = true ∧ final.status = "email_proccessed") ∧
    (runWorkflow envIgnore 3 emSelf).map (fun p => (p.1.email_replied, p.2))
      = some (true, []) := by
  refine ⟨fun final sent h => ?_, rfl⟩
  exact runFrom_some_terminal env fuel .process_email (initialState em) final sent
    (by simp) h

/-- Every email handed to the SMTP service during any run, from any node,
is addressed to the configured master address. -/
theorem runFrom_sent_to_master (env : Env) :
    ∀ fuel node st final sent, runFrom env fuel node st = some (final, sent) →
      ∀ o ∈ sent, o.to_email = env.master := by
  intro fuel
  induction fuel with
  | zero => intro node st final sent h; simp [runFrom] at h
  | succ n ih =>
    intro node st final sent h o ho
    cases node with
    | done =>
      simp only [runFrom] at h
      obtain ⟨hf, hs⟩ := Prod.mk.injEq _ _ _ _ ▸ Option.some.inj h
      rw [← hs] at ho
      simp at ho
    | process_email =>
      rw [runFrom_process_step] at h
      rcases hr : route_after_process (applyUpdate st (process_email env st))
          with _ | _ | _ <;> rw [hr] at h <;> exact ih _ _ _ _ h o ho
    | tools =>
      rw [runFrom_tools_step] at h
      exact ih _ _ _ _ h o ho
    | send_email =>
      rw [runFrom_send_step] at h
      rcases Option.map_eq_some'.mp h with ⟨⟨f1, s1⟩, hp, hfs⟩
      obtain ⟨hf, hsnt⟩ := Prod.mk.injEq _ _ _ _ ▸ hfs
      rw [← hsnt] at ho
      rcases List.mem_cons.mp ho with hh | hh
      · rw [hh]; rfl
      · exact ih _ _ _ _ hp o hh
    | mark_as_replied =>
      rw [runFrom_mark_step] at h
      exact ih _ _ _ _ h o ho

/-- C10: every outgoing reply produced by any workflow run is addressed to
the configured master address — the recipient is the constant
`env.master` from configuration and never depends on the incoming message's
sender, recipient or cc fields (the composed email's recipient is
`env.master` for every Task state whatsoever). -/
theorem reply_recipient_is_master (env : Env) (fuel : Nat) (em : EmailMsg) :
    (∀ final sent, runWorkflow env fuel em = some (final, sent) →
      ∀ o ∈ sent, o.to_email = env.master) ∧
    (∀ st, (composeOutgoing env.master st).to_email = env.master) := by
  exact ⟨fun final sent h =>
    runFrom_sent_to_master env fuel .process_email (initialState em) final sent h,
    fun st => rfl⟩

/-! ## Witnesses -/

/-- C1 witness: the re-entered state `stReplied` (replied flag already true)
short-circuits: concrete run, concrete language-model swap. -/
theorem replied_or_sent_task_short_circuits_witness :
    stReplied.email_message ≠ none ∧ stReplied.email_replied = true ∧
    runFrom envIgnore 3 .process_email stReplied = some (finalReplied, []) ∧
    runFrom { envIgnore with llm := fun _ => .ok (Msg.ai "ignored" []) } 3
        .process_email stReplied
      = runFrom envIgnore 3 .process_email stReplied ∧
    (([] : List OutgoingEmail) = [] ∧ finalReplied.email_replied = true ∧
      finalReplied.status = "email_proccessed") :=
  ⟨by simp [stReplied], rfl, rfl,
    (replied_or_sent_task_short_circuits envIgnore stReplied (by simp [stReplied])
      (Or.inl rfl) 3).1 (fun _ => .ok (Msg.ai "ignored" [])),
    (replied_or_sent_task_short_circuits envIgnore stReplied (by simp [stReplied])
      (Or.inl rfl) 3).2 finalReplied [] rfl⟩

/-- C2 (amended) witness: the unauthorized sender `emOther`, concrete run. -/
theorem unauthorized_or_self_routed_to_recorded_witness :
    (emOther.from_email ≠ envIgnore.master ∨ emOther.from_email = envIgnore.assistant) ∧
    runWorkflow envIgnore 3 emOther = some (finalOther, []) ∧
    (([] : List OutgoingEmail) = [] ∧ finalOther.email_replied = true ∧
      finalOther.status = "email_proccessed" ∧
      finalOther.messages = [Msg.human (if emOther.from_email = envIgnore.assistant then
          "Ignore email : Self-sent email"
        else "It\x27s not master\x27s email, No need to reply to the email.")]) :=
  ⟨Or.inl (by decide), rfl,
    (unauthorized_or_self_routed_to_recorded envIgnore emOther (Or.inl (by decide)) 3).2
      finalOther [] rfl⟩

/-- C3 (amended) witness: Scenario D with failure detail `"boom"`, entered
at the fresh initial state. -/
theorem llm_error_fallback_reply_witness :
    (initialState emMaster).email_message = some emMaster ∧
    (initialState emMaster).email_replied = false ∧
    lastIsSendToolResult (initialState emMaster).messages = false ∧
    emMaster.from_email = envErr.master ∧ emMaster.from_email ≠ envErr.assistant ∧
    envErr.llm (if (initialState emMaster).messages.length = 0 then
        [Msg.system (systemPrompt envErr.master), Msg.human (emailContent emMaster)]
      else (initialState emMaster).messages) = .error "boom" ∧
    runFrom envErr 5 .process_email (initialState emMaster)
      = some (finalErr, [outErr]) ∧
    ([outErr] = [{ to_email := envErr.master
                   subject := some "Agent process email error"
                   content := if (lastAiContent (initialState emMaster).messages).getD ""
                       = "" then placeholderBody
                     else (lastAiContent (initialState emMaster).messages).getD "" }] ∧
      finalErr.email_replied = true ∧ finalErr.status = "email_proccessed" ∧
      Msg.human ("Sorry , Agent process email error, detail as below: " ++ "boom"
        ++ ",please try again later!") ∈ finalErr.messages ∧
      finalErr.error = "boom") :=
  ⟨rfl, rfl, rfl, rfl, by decide, rfl, rfl,
    (llm_error_fallback_reply envErr (initialState emMaster) emMaster "boom"
        rfl rfl rfl rfl (by decide) rfl 5 finalErr [outErr] rfl).1,
    (llm_error_fallback_reply envErr (initialState emMaster) emMaster "boom"
        rfl rfl rfl rfl (by decide) rfl 5 finalErr [outErr] rfl).2.1,
    (llm_error_fallback_reply envErr (initialState emMaster) emMaster "boom"
        rfl rfl rfl rfl (by decide) rfl 5 finalErr [outErr] rfl).2.2.1,
    (llm_error_fallback_reply envErr (initialState emMaster) emMaster "boom"
        rfl rfl rfl rfl (by decide) rfl 5 finalErr [outErr] rfl).2.2.2.1,
    (llm_error_fallback_reply envErr (initialState emMaster) emMaster "boom"
        rfl rfl rfl rfl (by decide) rfl 5 finalErr [outErr] rfl).2.2.2.2 rfl⟩

/-- C4 (amended) witness: a concrete two-message batch with a failing unit. -/
theorem batch_submit_completion_accounting_witness :
    ([emSelf, emOther] : List EmailMsg) ≠ [] ∧
    ((process_new_emails dispatcherInit [emSelf, emOther]).2 = 1 ∧
      (process_new_emails dispatcherInit [emSelf, emOther]).1.completed_tasks
        = dispatcherInit.completed_tasks ∧
      (process_new_emails dispatcherInit [emSelf, emOther]).1.total_received
        = dispatcherInit.total_received + ([emSelf, emOther] : List EmailMsg).length ∧
      (on_task_complete (process_new_emails dispatcherInit [emSelf, emOther]).1
          true).completed_tasks = dispatcherInit.completed_tasks + 1) :=
  ⟨by simp, batch_submit_completion_accounting dispatcherInit [emSelf, emOther] true
    (by simp)⟩

/-- C6 witness: Scenario A, content `"你好"`, subject `"Translate this"`. -/
theorem plain_reply_subject_and_body_witness :
    emMaster.from_email = envA.master ∧ emMaster.from_email ≠ envA.assistant ∧
    envA.llm [Msg.system (systemPrompt envA.master), Msg.human (emailContent emMaster)]
      = .ok (Msg.ai "你好" []) ∧
    runWorkflow envA 5 emMaster = some (finalA, [outA]) ∧
    ([outA] = [{ to_email := envA.master, subject := some ("回复:" ++ emMaster.subject)
                 content := if "你好" = "" then placeholderBody else "你好" }] ∧
      finalA.email_replied = true ∧ finalA.status = "email_proccessed") :=
  ⟨rfl, by decide, rfl, rfl,
    plain_reply_subject_and_body envA emMaster "你好" rfl (by decide) rfl 5
      finalA [outA] rfl⟩

/-- C7 witness: a concrete successful send from the pre-send state
`stSend`. -/
theorem send_outcome_recorded_witness :
    runFrom envA 3 .send_email stSend = some (finalA, [outA]) ∧
    [outA] = [composeOutgoing envA.master stSend] ∧
    finalA.email_replied = true ∧ finalA.status = "email_proccessed" ∧
    finalA.error = stSend.error :=
  ⟨rfl, (send_outcome_recorded envA stSend 3 finalA [outA] rfl).1,
    (send_outcome_recorded envA stSend 3 finalA [outA] rfl).2.1,
    (send_outcome_recorded envA stSend 3 finalA [outA] rfl).2.2.1,
    (send_outcome_recorded envA stSend 3 finalA [outA] rfl).2.2.2.1 rfl⟩

/-- C9 witness: the unauthorized-sender run terminates marked. -/
theorem terminated_run_always_marked_witness :
    runWorkflow envIgnore 3 emOther = some (finalOther, []) ∧
    finalOther.email_replied = true ∧ finalOther.status = "email_proccessed" :=
  ⟨rfl, (terminated_run_always_marked envIgnore 3 emOther).1 finalOther [] rfl⟩

/-- C10 witness: the Scenario A reply goes to the master address. -/
theorem reply_recipient_is_master_witness :
    runWorkflow envA 5 emMaster = some (finalA, [outA]) ∧
    outA.to_email = envA.master :=
  ⟨rfl, (reply_recipient_is_master envA 5 emMaster).1 finalA [outA] rfl outA
    (by simp)⟩

end EmailAssistant
